import Mathlib

/-!
Shallow embedding of the Haarlem email-archive demo (`app.py`).

The embedding covers the parts of the program that the verified
properties are about:

* the dynamic WHERE-clause construction in `search_emails`
  (`app.py` lines 299-322): conditions are represented by a small
  datatype `Cond`; each condition knows its SQL text (`Cond.toSQL`,
  with `%s` positional placeholders), its contributed bound
  parameters (`Cond.toParams`) and its row-level meaning
  (`Cond.eval`, the semantics the database engine gives to the
  generated SQL);
* the execution of the generated SELECT (`app.py` lines 324-335):
  filter, ORDER BY sent_date DESC, LIMIT 50 (`runSearch`);
* the whole `/api/search` handler including the audit-log insert and
  commit (`app.py` lines 286-353), with an explicit parameter saying
  which database operation (if any) raises (`search_emails`);
* `init_database` (`app.py` lines 46-206): the schema/seed body as a
  transformation of an explicit database state (`init_database`) and
  the connect-retry loop as a recursion over an attempt-outcome
  oracle (`init_database_startup`).

Machine integers do not occur on any modelled path; timestamps are
modelled as integers (any totally ordered stand-in for SQL
`TIMESTAMP WITH TIME ZONE`); strings are Lean strings.
-/

/-- A value bound to a `%s` placeholder: either a string (query text,
wildcard pattern, classification label) or a timestamp. -/
inductive SqlParam where
  | str (s : String)
  | ts (t : Int)
  deriving DecidableEq

/-- One row of `email_metadata` (`app.py` lines 58-81), restricted to the
columns the modelled code reads or writes.  `sent_date` is an abstract
timestamp. -/
structure EmailRow where
  id : Nat
  message_id : String
  sender_email : String
  sender_name : String
  recipient_email : String
  subject : String
  sent_date : Int
  classification : String
  zaak_id : String
  has_attachments : Bool
  file_size_bytes : Nat
  minio_bucket : String
  minio_object_key : String
  deriving DecidableEq

/-- SQL LIKE pattern matching over characters: `%` matches any (possibly
empty) sequence, `_` matches exactly one character, anything else matches
itself.  This is the external database engine's semantics for the
patterns `search_emails` generates. -/
def likeMatch (p h : List Char) : Bool :=
  match p, h with
  | [], hs => hs.isEmpty
  | pc :: ps, hs =>
    if pc = '%' then
      match hs with
      | [] => likeMatch ps []
      | _ :: hs2 => likeMatch ps hs || likeMatch (pc :: ps) hs2
    else
      match hs with
      | [] => false
      | c :: hs2 => (pc == '_' || pc == c) && likeMatch ps hs2
termination_by (p.length, h.length)

/-- Characters of a string, lowercased (ASCII case folding, as in
`lower()` applied by ILIKE). -/
def lowerStr (s : String) : List Char :=
  s.data.map Char.toLower

/-- PostgreSQL `field ILIKE pat`: case-insensitive LIKE. -/
def ilike (field pat : String) : Bool :=
  likeMatch (lowerStr pat) (lowerStr field)

/-- Boolean substring test on character lists. -/
def isSubstr (needle hay : List Char) : Bool :=
  needle.isPrefixOf hay ||
    match hay with
    | [] => false
    | _ :: t => isSubstr needle t

/-- Case-insensitive substring test on strings. -/
def containsCI (field needle : String) : Bool :=
  isSubstr (lowerStr needle) (lowerStr field)

/-- `true` iff the string's characters contain no LIKE metacharacter
(`%` or `_`). -/
def plainChars (l : List Char) : Bool :=
  l.all fun c => !(c == '%') && !(c == '_')

/-- One sub-condition of the WHERE clause built by `search_emails`
(`app.py` lines 302-320).  `textSearch` carries the wildcard-wrapped
pattern; the date conditions carry the bound timestamp; `classEq`
carries the classification label. -/
inductive Cond where
  | textSearch (pat : String)
  | sentFrom (d : Int)
  | sentTo (d : Int)
  | classEq (c : String)
  deriving DecidableEq

/-- The SQL text appended to `where_conditions` for each sub-condition
(`app.py` lines 303-319), with `%s` positional placeholders. -/
def Cond.toSQL : Cond → String
  | .textSearch _ =>
      "\n                (subject ILIKE %s OR\n                 sender_email ILIKE %s OR\n                 recipient_email ILIKE %s)\n            "
  | .sentFrom _ => "sent_date >= %s"
  | .sentTo _ => "sent_date <= %s"
  | .classEq _ => "classification = %s"

/-- The values appended to `params` for each sub-condition
(`app.py` lines 308, 312, 316, 320): the free-text condition binds the
same wildcard-wrapped pattern at all three placeholder positions. -/
def Cond.toParams : Cond → List SqlParam
  | .textSearch p => [SqlParam.str p, SqlParam.str p, SqlParam.str p]
  | .sentFrom d => [SqlParam.ts d]
  | .sentTo d => [SqlParam.ts d]
  | .classEq c => [SqlParam.str c]

/-- The database engine's row-level meaning of each sub-condition. -/
def Cond.eval (c : Cond) (r : EmailRow) : Bool :=
  match c with
  | .textSearch p => ilike r.subject p || ilike r.sender_email p || ilike r.recipient_email p
  | .sentFrom d => decide (d ≤ r.sent_date)
  | .sentTo d => decide (r.sent_date ≤ d)
  | .classEq c => r.classification == c

/-- The filter values as `search_emails` holds them after extraction
from the request body (`app.py` lines 291-294): `query` defaults to the
empty string, the other three are `None` when absent.  Any falsy date
value is modelled as `none`. -/
structure SearchFilters where
  query : String
  date_from : Option Int
  date_to : Option Int
  classification : Option String
  deriving DecidableEq

/-- The optional fields of the POST /api/search JSON body. -/
structure SearchRequest where
  query : Option String
  date_from : Option Int
  date_to : Option Int
  classification : Option String
  deriving DecidableEq

/-- `data.get('query', '')` / `data.get(...)` extraction
(`app.py` lines 291-294). -/
def decodeFilters (r : SearchRequest) : SearchFilters :=
  { query := r.query.getD ""
    date_from := r.date_from
    date_to := r.date_to
    classification := r.classification }

/-- Conditions contributed by `query` (`app.py` lines 302-308): one
sub-condition when the value is truthy (non-empty). -/
def queryConds (q : String) : List Cond :=
  if q ≠ "" then [Cond.textSearch ("%" ++ q ++ "%")] else []

/-- Condition contributed by `date_from` (`app.py` lines 310-312). -/
def dateFromConds : Option Int → List Cond
  | none => []
  | some d => [Cond.sentFrom d]

/-- Condition contributed by `date_to` (`app.py` lines 314-316). -/
def dateToConds : Option Int → List Cond
  | none => []
  | some d => [Cond.sentTo d]

/-- Condition contributed by `classification` (`app.py` lines 318-320):
present only when the value is truthy and differs from the sentinel
`"all"`. -/
def classConds : Option String → List Cond
  | none => []
  | some c => if c ≠ "" ∧ c ≠ "all" then [Cond.classEq c] else []

/-- The `where_conditions` list built by `search_emails`
(`app.py` lines 299-320), in source order. -/
def where_conditions (f : SearchFilters) : List Cond :=
  queryConds f.query ++ dateFromConds f.date_from ++
    dateToConds f.date_to ++ classConds f.classification

/-- Parameters appended for `query` (`app.py` line 308): the same
wildcard-wrapped value three times. -/
def queryParams (q : String) : List SqlParam :=
  if q ≠ "" then
    [SqlParam.str ("%" ++ q ++ "%"), SqlParam.str ("%" ++ q ++ "%"),
      SqlParam.str ("%" ++ q ++ "%")]
  else []

/-- Parameter appended for `date_from` (`app.py` line 312). -/
def dateFromParams : Option Int → List SqlParam
  | none => []
  | some d => [SqlParam.ts d]

/-- Parameter appended for `date_to` (`app.py` line 316). -/
def dateToParams : Option Int → List SqlParam
  | none => []
  | some d => [SqlParam.ts d]

/-- Parameter appended for `classification` (`app.py` line 320). -/
def classParams : Option String → List SqlParam
  | none => []
  | some c => if c ≠ "" ∧ c ≠ "all" then [SqlParam.str c] else []

/-- The `params` list built by `search_emails` alongside
`where_conditions` (`app.py` lines 300-320), mirrored independently
branch by branch. -/
def searchParams (f : SearchFilters) : List SqlParam :=
  queryParams f.query ++ dateFromParams f.date_from ++
    dateToParams f.date_to ++ classParams f.classification

/-- The WHERE clause string (`app.py` line 322): empty when no condition
is present, otherwise `" WHERE "` followed by the conditions joined with
`" AND "`. -/
def where_clause (f : SearchFilters) : String :=
  if where_conditions f = [] then ""
  else " WHERE " ++ String.intercalate " AND " ((where_conditions f).map Cond.toSQL)

/-- Number of `%s` placeholders in a character list. -/
def countPS : List Char → Nat
  | '%' :: 's' :: rest => countPS rest + 1
  | _ :: rest => countPS rest
  | [] => 0

/-- Number of `%s` placeholders in a string. -/
def countPlaceholders (s : String) : Nat :=
  countPS s.data

/-- A row satisfies the generated WHERE clause iff it satisfies every
present sub-condition (they are joined with AND). -/
def rowMatches (f : SearchFilters) (r : EmailRow) : Bool :=
  (where_conditions f).all fun c => c.eval r

/-- `ORDER BY sent_date DESC` comparison. -/
def sentDesc (a b : EmailRow) : Bool :=
  decide (b.sent_date ≤ a.sent_date)

/-- Execution of the generated SELECT (`app.py` lines 324-335): keep the
rows matching the WHERE clause, order by `sent_date` descending, return
at most 50 rows. -/
def runSearch (db : List EmailRow) (f : SearchFilters) : List EmailRow :=
  ((db.filter (rowMatches f)).mergeSort sentDesc).take 50

/-- `SearchFilters` with every filter absent. -/
def emptyFilters : SearchFilters :=
  { query := "", date_from := none, date_to := none, classification := none }

/-- The JSONB `details` payload of an audit-log row: either one of the
seeded raw JSON strings (`app.py` lines 175-181) or the payload written
by `search_emails` (`app.py` line 341), which records the query text and
the result count. -/
inductive AuditDetails where
  | seeded (raw : String)
  | search (query : String) (results_count : Nat)
  deriving DecidableEq

/-- One row of `email_audit_log` (`app.py` lines 83-93), restricted to
the columns the modelled code writes. -/
structure AuditEntry where
  email_id : Option Nat
  action : String
  user_id : String
  details : AuditDetails
  deriving DecidableEq

/-- One row of `woo_requests` (`app.py` lines 95-109), restricted to the
columns the seed insert writes. -/
structure WooRequest where
  request_id : String
  requester_name : String
  requester_email : String
  request_description : String
  search_terms : String
  due_date : String
  status : String
  deriving DecidableEq

/-- One row of `woo_email_matches` (`app.py` lines 111-121). -/
structure WooMatch where
  woo_request_id : Nat
  email_id : Nat
  deriving DecidableEq

/-- The relational state the modelled code touches: which tables and
indexes exist, and the rows of the seeded/queried tables. -/
structure ArchiveDB where
  tables : List String
  indexes : List String
  email_metadata : List EmailRow
  email_audit_log : List AuditEntry
  woo_requests : List WooRequest
  woo_email_matches : List WooMatch
  deriving DecidableEq

/-- The database operations of the `/api/search` handler at which an
exception can be raised (`app.py` lines 334, 338, 342): the SELECT, the
audit INSERT, or the final commit. -/
inductive FailStep where
  | duringSearch
  | duringAuditInsert
  | duringCommit
  deriving DecidableEq

/-- The JSON response of POST /api/search: either
`200 (results, total)` (`app.py` lines 344-347) or the
`500 (error)` body (`app.py` line 350). -/
inductive SearchResult where
  | ok (results : List EmailRow) (total : Nat)
  | serverError
  deriving DecidableEq

/-- The `total` field of a successful response. -/
def totalOf : SearchResult → Option Nat
  | SearchResult.ok _ t => some t
  | SearchResult.serverError => none

/-- The `/api/search` handler (`app.py` lines 286-353).  `failAt` says
which database operation, if any, raises.  Nothing is durable before the
single `conn.commit()` on line 342, so every failing path leaves the
database unchanged and returns the 500 body; the successful path commits
the search read together with one audit-log insert recording the query
text and `len(results)`, and returns `len(results)` as `total`. -/
def search_emails (failAt : Option FailStep) (db : ArchiveDB) (req : SearchRequest) :
    ArchiveDB × SearchResult :=
  let f := decodeFilters req
  if failAt = some FailStep.duringSearch then (db, SearchResult.serverError)
  else
    let results := runSearch db.email_metadata f
    if failAt = some FailStep.duringAuditInsert then (db, SearchResult.serverError)
    else if failAt = some FailStep.duringCommit then (db, SearchResult.serverError)
    else
      let entry : AuditEntry :=
        { email_id := none, action := "search", user_id := "demo_user",
          details := AuditDetails.search f.query results.length }
      ({ db with email_audit_log := db.email_audit_log ++ [entry] },
        SearchResult.ok results results.length)

/-- `CREATE TABLE IF NOT EXISTS` / `CREATE INDEX IF NOT EXISTS` on the
name level: add the name only when it is not already present. -/
def ensureName (xs : List String) (n : String) : List String :=
  if n ∈ xs then xs else xs ++ [n]

/-- The five seeded `email_metadata` rows (`app.py` lines 135-163), with
SERIAL ids 1-5 and the timestamps encoded as integers
(`2024-01-15 10:30:00+01` as 20240115103000, and so on; all five share
the `+01` offset, so the encoding is order-preserving). -/
def seedEmails : List EmailRow :=
  [{ id := 1, message_id := "demo-001@haarlem.nl", sender_email := "j.doe@haarlem.nl",
      sender_name := "John Doe",
      recipient_email := "[\"team@haarlem.nl\", \"manager@haarlem.nl\"]",
      subject := "Project update - DMS implementatie voortgang", sent_date := 20240115103000,
      classification := "intern", zaak_id := "ZAAK-2024-001", has_attachments := false,
      file_size_bytes := 1024, minio_bucket := "user-j-doe",
      minio_object_key := "emails/2024/01/demo-001.eml" },
    { id := 2, message_id := "demo-002@haarlem.nl", sender_email := "burger@example.com",
      sender_name := "Bezorgde Burger",
      recipient_email := "[\"info@haarlem.nl\"]",
      subject := "WOO verzoek - verkeerslichten en verkeersdata gemeente",
      sent_date := 20240116142000,
      classification := "openbaar", zaak_id := "WOO-2024-002", has_attachments := false,
      file_size_bytes := 2048, minio_bucket := "user-info",
      minio_object_key := "emails/2024/01/demo-002.eml" },
    { id := 3, message_id := "demo-003@haarlem.nl", sender_email := "wethouder@haarlem.nl",
      sender_name := "Wethouder Smith",
      recipient_email := "[\"griffie@haarlem.nl\", \"pers@haarlem.nl\"]",
      subject := "VERTROUWELIJK: Coalitieoverleg agenda en afspraken",
      sent_date := 20240117091500,
      classification := "vertrouwelijk", zaak_id := "RAAD-2024-003", has_attachments := false,
      file_size_bytes := 512, minio_bucket := "user-wethouder",
      minio_object_key := "emails/2024/01/demo-003.eml" },
    { id := 4, message_id := "demo-004@haarlem.nl", sender_email := "projectleider@haarlem.nl",
      sender_name := "Project Manager IT",
      recipient_email := "[\"cio@haarlem.nl\"]",
      subject := "MinIO implementatie - status update week 3", sent_date := 20240118164500,
      classification := "intern", zaak_id := "PROJ-2024-004", has_attachments := false,
      file_size_bytes := 856, minio_bucket := "user-projectleider",
      minio_object_key := "emails/2024/01/demo-004.eml" },
    { id := 5, message_id := "demo-005@haarlem.nl",
      sender_email := "journalist@haarlemsdagblad.nl",
      sender_name := "Journalist HD",
      recipient_email := "[\"woordvoering@haarlem.nl\"]",
      subject := "Vragen over digitalisering gemeente - deadline artikel",
      sent_date := 20240119113000,
      classification := "openbaar", zaak_id := "PERS-2024-001", has_attachments := false,
      file_size_bytes := 1500, minio_bucket := "user-woordvoering",
      minio_object_key := "emails/2024/01/demo-005.eml" }]

/-- The seeded WOO request (`app.py` lines 166-172). -/
def seedWooRequest : WooRequest :=
  { request_id := "WOO-2024-001", requester_name := "Journalist Haarlems Dagblad",
    requester_email := "journalist@haarlemsdagblad.nl",
    request_description :=
      "Verzoek om alle emails betreffende DMS implementatie en digitalisering projecten",
    search_terms := "DMS implementatie digitalisering", due_date := "2024-02-15",
    status := "processing" }

/-- The five seeded audit-log rows (`app.py` lines 175-187). -/
def seedAuditLogs : List AuditEntry :=
  [{ email_id := some 1, action := "created", user_id := "system",
      details := AuditDetails.seeded
        "\x7b\"source\": \"exchange_transport\", \"automated\": true\x7d" },
    { email_id := some 2, action := "created", user_id := "system",
      details := AuditDetails.seeded
        "\x7b\"source\": \"external_email\", \"woo_relevant\": true\x7d" },
    { email_id := some 3, action := "created", user_id := "system",
      details := AuditDetails.seeded
        "\x7b\"source\": \"internal_email\", \"classification\": \"confidential\"\x7d" },
    { email_id := some 4, action := "created", user_id := "system",
      details := AuditDetails.seeded
        "\x7b\"source\": \"project_email\", \"automated\": true\x7d" },
    { email_id := some 5, action := "created", user_id := "system",
      details := AuditDetails.seeded
        "\x7b\"source\": \"external_email\", \"press_related\": true\x7d" }]

/-- The four `CREATE TABLE IF NOT EXISTS` statements
(`app.py` lines 58-121), in source order. -/
def ensureTables (xs : List String) : List String :=
  ensureName (ensureName (ensureName (ensureName xs
    "email_metadata") "email_audit_log") "woo_requests") "woo_email_matches"

/-- The three `CREATE INDEX IF NOT EXISTS` statements
(`app.py` lines 124-126). -/
def ensureIndexes (xs : List String) : List String :=
  ensureName (ensureName (ensureName xs
    "idx_email_sender") "idx_email_subject") "idx_email_date"

/-- The body of one successful `init_database` attempt
(`app.py` lines 57-194): create the four tables and three indexes if
absent, then seed the fixture data exactly when `email_metadata` is
empty. -/
def init_database (db : ArchiveDB) : ArchiveDB :=
  let db1 := { db with tables := ensureTables db.tables }
  let db2 := { db1 with indexes := ensureIndexes db1.indexes }
  if db2.email_metadata.length = 0 then
    { db2 with
      email_metadata := db2.email_metadata ++ seedEmails,
      woo_requests := db2.woo_requests ++ [seedWooRequest],
      email_audit_log := db2.email_audit_log ++ seedAuditLogs }
  else db2

/-- Outcome of one `psycopg2.connect`-plus-initialization attempt:
success, a connection failure (`psycopg2.OperationalError`), or any
other exception. -/
inductive AttemptOutcome where
  | success
  | connFail
  | otherFail
  deriving DecidableEq

/-- Result of the startup initialization (`app.py` lines 46-206):
normal return, the re-raised connection error after exhausting the
retries, the immediately re-raised non-connection error, or the
(unreachable from the entry point) fall-through of the while loop.
Each constructor records how many attempts ran. -/
inductive InitResult where
  | ok (attempts : Nat)
  | fatalConnError (attempts : Nat)
  | fatalOtherError (attempts : Nat)
  | loopExit (attempts : Nat)
  deriving DecidableEq

/-- `max_retries = 30` (`app.py` line 49). -/
def max_retries : Nat := 30

/-- The fixed delay of `time.sleep(2)` (`app.py` line 200), in seconds. -/
def retry_delay_seconds : Nat := 2

/-- The retry loop of `init_database` (`app.py` lines 52-206).
`outcome k` is what attempt number `k` (0-based) does; `fuel` is
`max_retries - retry_count`, the number of loop iterations the guard
still allows.  Returns the result together with the list of delays
slept, in order. -/
def initLoop (outcome : Nat → AttemptOutcome) (retry_count fuel : Nat) :
    InitResult × List Nat :=
  match fuel with
  | 0 => (InitResult.loopExit retry_count, [])
  | fuel2 + 1 =>
    match outcome retry_count with
    | AttemptOutcome.success => (InitResult.ok (retry_count + 1), [])
    | AttemptOutcome.connFail =>
      if retry_count + 1 < max_retries then
        let rest := initLoop outcome (retry_count + 1) fuel2
        (rest.1, retry_delay_seconds :: rest.2)
      else (InitResult.fatalConnError (retry_count + 1), [])
    | AttemptOutcome.otherFail => (InitResult.fatalOtherError (retry_count + 1), [])

/-- `init_database` as called at startup (`app.py` line 384): the retry
loop entered with `retry_count = 0`. -/
def init_database_startup (outcome : Nat → AttemptOutcome) : InitResult × List Nat :=
  initLoop outcome 0 max_retries

/-- The concrete rows used to exhibit the 51-row database below. -/
def cexRow (i : Nat) : EmailRow :=
  { id := i, message_id := "", sender_email := "", sender_name := "",
    recipient_email := "", subject := "", sent_date := (i : Int),
    classification := "", zaak_id := "", has_attachments := false,
    file_size_bytes := 0, minio_bucket := "", minio_object_key := "" }

/-- A database whose `email_metadata` table holds 51 rows. -/
def cexDB : ArchiveDB :=
  { tables := [], indexes := [], email_metadata := (List.range 51).map cexRow,
    email_audit_log := [], woo_requests := [], woo_email_matches := [] }

/-- A POST /api/search body with every field omitted. -/
def emptyRequest : SearchRequest :=
  { query := none, date_from := none, date_to := none, classification := none }

/- Helper lemmas about the embedding. -/

theorem rowMatches_emptyFilters (r : EmailRow) : rowMatches emptyFilters r = true := rfl

theorem filter_rowMatches_emptyFilters (db : List EmailRow) :
    db.filter (rowMatches emptyFilters) = db :=
  List.filter_eq_self.mpr fun _ _ => rfl

theorem length_runSearch (db : List EmailRow) (f : SearchFilters) :
    (runSearch db f).length = min 50 (db.filter (rowMatches f)).length := by
  simp [runSearch, List.length_take, List.length_mergeSort]

theorem rowMatches_congr {f g : SearchFilters}
    (h : where_conditions f = where_conditions g) : rowMatches f = rowMatches g := by
  funext r; unfold rowMatches; rw [h]

theorem runSearch_congr (db : List EmailRow) {f g : SearchFilters}
    (h : where_conditions f = where_conditions g) : runSearch db f = runSearch db g := by
  unfold runSearch; rw [rowMatches_congr h]

/-- C4: a successful `searchEmails` call appends exactly one new
audit-log entry, with action "search", a null email reference and a
detail payload recording the query text and a `results_count` equal to
the `total` returned to the caller; no other table changes. -/
theorem search_audit_entry (db : ArchiveDB) (req : SearchRequest) :
    (search_emails none db req).1.email_audit_log =
      db.email_audit_log ++
        [{ email_id := none, action := "search", user_id := "demo_user",
            details := AuditDetails.search (decodeFilters req).query
              (runSearch db.email_metadata (decodeFilters req)).length }] ∧
    (search_emails none db req).2 =
      SearchResult.ok (runSearch db.email_metadata (decodeFilters req))
        (runSearch db.email_metadata (decodeFilters req)).length ∧
    (search_emails none db req).1.email_metadata = db.email_metadata ∧
    (search_emails none db req).1.woo_requests = db.woo_requests ∧
    (search_emails none db req).1.woo_email_matches = db.woo_email_matches :=
  ⟨rfl, rfl, rfl, rfl, rfl⟩

/-- C10: every failing path of the `/api/search` handler returns the 500
error body and commits nothing, so the audit log (and the whole database
state) is unchanged. -/
theorem search_error_no_audit (s : FailStep) (db : ArchiveDB) (req : SearchRequest) :
    (search_emails (some s) db req).2 = SearchResult.serverError ∧
    (search_emails (some s) db req).1 = db := by
  cases s <;> exact ⟨rfl, rfl⟩

/-- C2 (counterexample): on a database whose `email_metadata` table
holds 51 rows, a search with all filters omitted matches all 51 rows,
but the `total` field of the JSON response is 50 (`len(results)` after
`LIMIT 50`), not the number of matching rows. -/
theorem search_total_counterexample :
    totalOf (search_emails none cexDB emptyRequest).2 = some 50 ∧
    (cexDB.email_metadata.filter (rowMatches (decodeFilters emptyRequest))).length = 51 := by
  have hfilter : cexDB.email_metadata.filter (rowMatches (decodeFilters emptyRequest)) =
      cexDB.email_metadata :=
    List.filter_eq_self.mpr fun _ _ => rfl
  have hlen : (cexDB.email_metadata.filter (rowMatches (decodeFilters emptyRequest))).length = 51 := by
    rw [hfilter]; simp [cexDB]
  refine ⟨?_, hlen⟩
  simp [search_emails, totalOf, runSearch, List.length_take, List.length_mergeSort, hlen]

/-- C2 (amended): `searchEmails` returns the matching rows capped at 50
together with a `total` field equal to the number of rows actually
returned, i.e. the number of matching rows capped at the 50-row limit
(not the count of all matching rows). -/
theorem search_total_eq_returned (db : ArchiveDB) (req : SearchRequest) :
    (search_emails none db req).2 =
      SearchResult.ok (runSearch db.email_metadata (decodeFilters req))
        (min 50 (db.email_metadata.filter (rowMatches (decodeFilters req))).length) := by
  simp [search_emails, runSearch, List.length_take, List.length_mergeSort]

/-- C9: at the POST /api/search interface an empty-string `query`
behaves identically to omitting the field (both decode to the same
filter values), and an empty-string `classification` contributes no
sub-condition, so clause, parameters and results coincide with the
omitted field and with the `"all"` sentinel. -/
theorem empty_string_filters_inert (req : SearchRequest) (db : List EmailRow) :
    decodeFilters { req with query := some "" } = decodeFilters { req with query := none } ∧
    where_conditions (decodeFilters { req with classification := some "" }) =
      where_conditions (decodeFilters { req with classification := none }) ∧
    searchParams (decodeFilters { req with classification := some "" }) =
      searchParams (decodeFilters { req with classification := none }) ∧
    where_clause (decodeFilters { req with classification := some "" }) =
      where_clause (decodeFilters { req with classification := none }) ∧
    runSearch db (decodeFilters { req with classification := some "" }) =
      runSearch db (decodeFilters { req with classification := none }) ∧
    where_conditions (decodeFilters { req with classification := some "" }) =
      where_conditions (decodeFilters { req with classification := some "all" }) ∧
    runSearch db (decodeFilters { req with classification := some "" }) =
      runSearch db (decodeFilters { req with classification := some "all" }) := by
  have h1 : where_conditions (decodeFilters { req with classification := some "" }) =
      where_conditions (decodeFilters { req with classification := none }) := by
    simp [where_conditions, classConds, decodeFilters]
  have h2 : where_conditions (decodeFilters { req with classification := some "" }) =
      where_conditions (decodeFilters { req with classification := some "all" }) := by
    simp [where_conditions, classConds, decodeFilters]
  refine ⟨rfl, h1, ?_, ?_, runSearch_congr db h1, h2, runSearch_congr db h2⟩
  · simp [searchParams, classParams, decodeFilters]
  · simp [where_clause, h1]

/-- C6: `classification = "all"` produces the same conditions,
parameters, clause and results as omitting the classification filter;
any other present (non-empty) classification value contributes exactly
the `classification = %s` exact-match condition with the value bound. -/
theorem classification_all_sentinel (f : SearchFilters) (db : List EmailRow)
    (r : EmailRow) (c : String) (hc1 : c ≠ "") (hc2 : c ≠ "all") :
    where_conditions { f with classification := some "all" } =
      where_conditions { f with classification := none } ∧
    searchParams { f with classification := some "all" } =
      searchParams { f with classification := none } ∧
    where_clause { f with classification := some "all" } =
      where_clause { f with classification := none } ∧
    runSearch db { f with classification := some "all" } =
      runSearch db { f with classification := none } ∧
    classConds (some c) = [Cond.classEq c] ∧
    classParams (some c) = [SqlParam.str c] ∧
    (Cond.classEq c).toSQL = "classification = %s" ∧
    ((Cond.classEq c).eval r = true ↔ r.classification = c) := by
  have h1 : where_conditions { f with classification := some "all" } =
      where_conditions { f with classification := none } := by
    simp [where_conditions, classConds]
  refine ⟨h1, ?_, ?_, runSearch_congr db h1, ?_, ?_, rfl, ?_⟩
  · simp [searchParams, classParams]
  · simp [where_clause, h1]
  · simp [classConds, hc1, hc2]
  · simp [classParams, hc1, hc2]
  · simp [Cond.eval]

/-- A sample row used to instantiate universally quantified statements. -/
def demoRow : EmailRow :=
  { id := 7, message_id := "m-7", sender_email := "a@b.nl", sender_name := "A",
    recipient_email := "[\"c@d.nl\"]", subject := "Subject 7", sent_date := 7,
    classification := "intern", zaak_id := "Z-7", has_attachments := false,
    file_size_bytes := 7, minio_bucket := "b", minio_object_key := "k" }

/-- C6 witness at concrete inputs. -/
theorem classification_all_sentinel_witness :
    classConds (some "vertrouwelijk") = [Cond.classEq "vertrouwelijk"] ∧
    classParams (some "vertrouwelijk") = [SqlParam.str "vertrouwelijk"] ∧
    where_clause { emptyFilters with classification := some "all" } =
      where_clause { emptyFilters with classification := none } ∧
    ((Cond.classEq "vertrouwelijk").eval demoRow = true ↔
      demoRow.classification = "vertrouwelijk") := by
  have h := classification_all_sentinel emptyFilters [] demoRow "vertrouwelijk"
    (by decide) (by decide)
  exact ⟨h.2.2.2.2.1, h.2.2.2.2.2.1, h.2.2.1, h.2.2.2.2.2.2.2⟩

/-- C8: with every filter absent the builder produces no WHERE clause,
and the search returns the matching rows (all rows) sorted by sent
timestamp descending, capped at 50 — equal (up to the reported order) to
the whole table when it has at most 50 rows. -/
theorem no_filters_returns_all (db : List EmailRow) :
    where_clause emptyFilters = "" ∧
    (runSearch db emptyFilters).length = min 50 db.length ∧
    List.Pairwise (fun a b => b.sent_date ≤ a.sent_date) (runSearch db emptyFilters) ∧
    (db.length ≤ 50 → (runSearch db emptyFilters).Perm db) := by
  have hfilter := filter_rowMatches_emptyFilters db
  refine ⟨rfl, ?_, ?_, ?_⟩
  · rw [length_runSearch, hfilter]
  · have hs := @List.sorted_mergeSort EmailRow sentDesc
      (fun a b c hab hbc => by
        simp only [sentDesc, decide_eq_true_eq] at hab hbc ⊢; exact le_trans hbc hab)
      (fun a b => by
        simp only [sentDesc, Bool.or_eq_true, decide_eq_true_eq]; exact le_total _ _)
      (db.filter (rowMatches emptyFilters))
    have hsub : List.Sublist (runSearch db emptyFilters)
        ((db.filter (rowMatches emptyFilters)).mergeSort sentDesc) :=
      List.take_sublist _ _
    exact (hs.sublist hsub).imp fun h => by
      simpa [sentDesc, decide_eq_true_eq] using h
  · intro hle
    have hlen : ((db.filter (rowMatches emptyFilters)).mergeSort sentDesc).length ≤ 50 := by
      rw [List.length_mergeSort, hfilter]; exact hle
    unfold runSearch
    rw [List.take_of_length_le hlen]
    exact (List.mergeSort_perm _ _).trans (by rw [hfilter])

/-- C8 witness at concrete inputs. -/
theorem no_filters_returns_all_witness :
    where_clause emptyFilters = "" ∧
    ([demoRow].length ≤ 50 ∧ (runSearch [demoRow] emptyFilters).Perm [demoRow]) := by
  have h := no_filters_returns_all [demoRow]
  exact ⟨h.1, by decide, h.2.2.2 (by decide)⟩

theorem queryParams_flatMap (q : String) :
    queryParams q = (queryConds q).flatMap Cond.toParams := by
  by_cases hq : q = "" <;> simp [queryParams, queryConds, hq, Cond.toParams]

theorem dateFromParams_flatMap (d : Option Int) :
    dateFromParams d = (dateFromConds d).flatMap Cond.toParams := by
  cases d <;> rfl

theorem dateToParams_flatMap (d : Option Int) :
    dateToParams d = (dateToConds d).flatMap Cond.toParams := by
  cases d <;> rfl

theorem classParams_flatMap (cl : Option String) :
    classParams cl = (classConds cl).flatMap Cond.toParams := by
  rcases cl with _ | c
  · rfl
  · by_cases hc : c ≠ "" ∧ c ≠ "all" <;>
      simp [classParams, classConds, hc, Cond.toParams]

theorem classConds_shape (cl : Option String) :
    (classConds cl = [] ∧ classParams cl = []) ∨
    ∃ c, classConds cl = [Cond.classEq c] ∧ classParams cl = [SqlParam.str c] := by
  rcases cl with _ | c
  · exact Or.inl ⟨rfl, rfl⟩
  · by_cases hc : c ≠ "" ∧ c ≠ "all"
    · exact Or.inr ⟨c, by simp [classConds, hc], by simp [classParams, hc]⟩
    · exact Or.inl ⟨by simp [classConds, hc], by simp [classParams, hc]⟩

/-- C1: for every subset of the four optional filters, the generated
WHERE clause contains exactly as many `%s` placeholders as there are
entries in the parameter list, and the parameters appear in the same
order as their placeholders: the list equals the in-order concatenation
of each present condition's parameters (the free-text condition
contributing three, one per sub-condition position — see
`Cond.toSQL`/`Cond.toParams`). -/
theorem placeholders_match_params (f : SearchFilters) :
    countPlaceholders (where_clause f) = (searchParams f).length ∧
    searchParams f = (where_conditions f).flatMap Cond.toParams ∧
    (∀ c ∈ where_conditions f,
      countPlaceholders (Cond.toSQL c) = (Cond.toParams c).length) := by
  refine ⟨?_, ?_, ?_⟩
  · obtain ⟨q, df, dt, cl⟩ := f
    rcases classConds_shape cl with ⟨h4, h4p⟩ | ⟨c, h4, h4p⟩ <;>
      by_cases hq : q = "" <;>
      rcases df with _ | d1 <;> rcases dt with _ | d2 <;>
      simp [where_clause, where_conditions, searchParams, queryConds, queryParams,
        dateFromConds, dateFromParams, dateToConds, dateToParams, h4, h4p, hq,
        countPlaceholders, Cond.toSQL, String.intercalate] <;>
      decide
  · simp [searchParams, where_conditions, queryParams_flatMap, dateFromParams_flatMap,
      dateToParams_flatMap, classParams_flatMap]
  · intro c _
    cases c <;> rfl

/-- C1 witness at a concrete filter set (all four filters present). -/
theorem placeholders_match_params_witness :
    countPlaceholders (where_clause
        { query := "DMS", date_from := some 1, date_to := some 2,
          classification := some "intern" }) =
      (searchParams
        { query := "DMS", date_from := some 1, date_to := some 2,
          classification := some "intern" }).length ∧
    countPlaceholders (Cond.toSQL (Cond.textSearch ("%" ++ "DMS" ++ "%"))) =
      (Cond.toParams (Cond.textSearch ("%" ++ "DMS" ++ "%"))).length := by
  have h := placeholders_match_params
    { query := "DMS", date_from := some 1, date_to := some 2,
      classification := some "intern" }
  exact ⟨h.1, h.2.2 _ (by decide)⟩

theorem mem_ensureName_self (xs : List String) (n : String) : n ∈ ensureName xs n := by
  unfold ensureName; split
  · assumption
  · simp

theorem mem_ensureName_of_mem {xs : List String} {n : String} (m : String)
    (h : n ∈ xs) : n ∈ ensureName xs m := by
  unfold ensureName; split
  · exact h
  · simp [h]

theorem ensureName_eq_of_mem {xs : List String} {n : String} (h : n ∈ xs) :
    ensureName xs n = xs :=
  if_pos h

theorem ensureTables_idem (xs : List String) :
    ensureTables (ensureTables xs) = ensureTables xs := by
  have h1 : "email_metadata" ∈ ensureTables xs :=
    mem_ensureName_of_mem _ (mem_ensureName_of_mem _ (mem_ensureName_of_mem _
      (mem_ensureName_self _ _)))
  have h2 : "email_audit_log" ∈ ensureTables xs :=
    mem_ensureName_of_mem _ (mem_ensureName_of_mem _ (mem_ensureName_self _ _))
  have h3 : "woo_requests" ∈ ensureTables xs :=
    mem_ensureName_of_mem _ (mem_ensureName_self _ _)
  have h4 : "woo_email_matches" ∈ ensureTables xs :=
    mem_ensureName_self _ _
  show ensureName (ensureName (ensureName (ensureName (ensureTables xs)
    "email_metadata") "email_audit_log") "woo_requests") "woo_email_matches" =
    ensureTables xs
  rw [ensureName_eq_of_mem h1, ensureName_eq_of_mem h2, ensureName_eq_of_mem h3,
    ensureName_eq_of_mem h4]

theorem ensureIndexes_idem (xs : List String) :
    ensureIndexes (ensureIndexes xs) = ensureIndexes xs := by
  have h1 : "idx_email_sender" ∈ ensureIndexes xs :=
    mem_ensureName_of_mem _ (mem_ensureName_of_mem _ (mem_ensureName_self _ _))
  have h2 : "idx_email_subject" ∈ ensureIndexes xs :=
    mem_ensureName_of_mem _ (mem_ensureName_self _ _)
  have h3 : "idx_email_date" ∈ ensureIndexes xs :=
    mem_ensureName_self _ _
  show ensureName (ensureName (ensureName (ensureIndexes xs)
    "idx_email_sender") "idx_email_subject") "idx_email_date" = ensureIndexes xs
  rw [ensureName_eq_of_mem h1, ensureName_eq_of_mem h2, ensureName_eq_of_mem h3]

theorem init_database_guard_false (db : ArchiveDB) (h : ¬ db.email_metadata.length = 0) :
    init_database db =
      { db with tables := ensureTables db.tables, indexes := ensureIndexes db.indexes } := by
  unfold init_database
  simp [h]

theorem init_database_guard_true (db : ArchiveDB) (h : db.email_metadata.length = 0) :
    init_database db =
      { db with
        tables := ensureTables db.tables
        indexes := ensureIndexes db.indexes
        email_metadata := db.email_metadata ++ seedEmails
        woo_requests := db.woo_requests ++ [seedWooRequest]
        email_audit_log := db.email_audit_log ++ seedAuditLogs } := by
  unfold init_database
  simp [h]

/-- C5: schema setup is idempotent — a second run on the same database
changes nothing (no duplicate tables, indexes or seed rows) — and the
fixture seeding (5 emails, 1 WOO request, 5 audit entries) happens
exactly when the email-metadata table is empty. -/
theorem schema_setup_idempotent (db : ArchiveDB) :
    init_database (init_database db) = init_database db ∧
    (db.email_metadata = [] →
      (init_database db).email_metadata = db.email_metadata ++ seedEmails ∧
      (init_database db).woo_requests = db.woo_requests ++ [seedWooRequest] ∧
      (init_database db).email_audit_log = db.email_audit_log ++ seedAuditLogs) ∧
    (db.email_metadata ≠ [] →
      (init_database db).email_metadata = db.email_metadata ∧
      (init_database db).woo_requests = db.woo_requests ∧
      (init_database db).email_audit_log = db.email_audit_log) ∧
    seedEmails.length = 5 ∧ seedAuditLogs.length = 5 := by
  refine ⟨?_, ?_, ?_, rfl, rfl⟩
  · by_cases h : db.email_metadata.length = 0
    · rw [init_database_guard_true db h]
      rw [init_database_guard_false _ (by simp [seedEmails])]
      simp [ensureTables_idem, ensureIndexes_idem]
    · rw [init_database_guard_false db h]
      rw [init_database_guard_false _ (by simpa using h)]
      simp [ensureTables_idem, ensureIndexes_idem]
  · intro h
    rw [init_database_guard_true db (by simp [h])]
    exact ⟨rfl, rfl, rfl⟩
  · intro h
    rw [init_database_guard_false db (by simpa [List.length_eq_zero] using h)]
    exact ⟨rfl, rfl, rfl⟩

/-- C5 witness: a fresh empty database is seeded on the first run and a
second run inserts nothing. -/
theorem schema_setup_idempotent_witness :
    (let fresh : ArchiveDB :=
      { tables := [], indexes := [], email_metadata := [], email_audit_log := [],
        woo_requests := [], woo_email_matches := [] }
    init_database (init_database fresh) = init_database fresh ∧
    (init_database fresh).email_metadata = seedEmails ∧
    (init_database fresh).woo_requests = [seedWooRequest] ∧
    (init_database fresh).email_audit_log = seedAuditLogs) := by
  have h := schema_setup_idempotent
    { tables := [], indexes := [], email_metadata := [], email_audit_log := [],
      woo_requests := [], woo_email_matches := [] }
  have h2 := h.2.1 rfl
  exact ⟨h.1, by simpa using h2.1, by simpa using h2.2.1, by simpa using h2.2.2⟩

theorem initLoop_allConnFail (outcome : Nat → AttemptOutcome) :
    ∀ fuel retry_count, retry_count + fuel + 1 = max_retries →
    (∀ k, retry_count ≤ k → k < max_retries → outcome k = AttemptOutcome.connFail) →
    initLoop outcome retry_count (fuel + 1) =
      (InitResult.fatalConnError max_retries,
        List.replicate fuel retry_delay_seconds) := by
  intro fuel
  induction fuel with
  | zero =>
    intro retry_count hsum hout
    have hcf := hout retry_count le_rfl (by omega)
    unfold initLoop
    rw [hcf]
    have hnext : ¬ retry_count + 1 < max_retries := by omega
    rw [if_neg hnext]
    have : retry_count + 1 = max_retries := by omega
    rw [this]
    rfl
  | succ f ih =>
    intro retry_count hsum hout
    have hcf := hout retry_count le_rfl (by omega)
    unfold initLoop
    rw [hcf]
    have hnext : retry_count + 1 < max_retries := by omega
    rw [if_pos hnext,
      ih (retry_count + 1) (by omega) (fun k hk hk2 => hout k (by omega) hk2),
      List.replicate_succ]

theorem initLoop_otherFail (outcome : Nat → AttemptOutcome) :
    ∀ fuel retry_count m, retry_count + fuel = max_retries → m < fuel →
    (∀ k, retry_count ≤ k → k < retry_count + m → outcome k = AttemptOutcome.connFail) →
    outcome (retry_count + m) = AttemptOutcome.otherFail →
    initLoop outcome retry_count fuel =
      (InitResult.fatalOtherError (retry_count + m + 1),
        List.replicate m retry_delay_seconds) := by
  intro fuel
  induction fuel with
  | zero => intro retry_count m _ hm _ _; omega
  | succ f ih =>
    intro retry_count m hsum hm hconn hother
    cases m with
    | zero =>
      unfold initLoop
      rw [Nat.add_zero] at hother
      rw [hother]
      simp
    | succ m2 =>
      have hcf := hconn retry_count le_rfl (by omega)
      unfold initLoop
      rw [hcf]
      have hnext : retry_count + 1 < max_retries := by omega
      have hshift : retry_count + 1 + m2 = retry_count + (m2 + 1) := by omega
      rw [if_pos hnext,
        ih (retry_count + 1) m2 (by omega) (by omega)
          (fun k hk hk2 => hconn k (by omega) (by omega))
          (by rw [hshift]; exact hother)]
      have harg : retry_count + 1 + m2 + 1 = retry_count + (m2 + 1) + 1 := by omega
      rw [harg, List.replicate_succ]

/-- C7: startup schema initialization retries connection failures with a
fixed 2-second delay for at most 30 attempts — if every attempt fails to
connect, exactly 30 attempts run, 29 fixed 2-second delays are slept and
the connection error is re-raised (fatal) — while a non-connection error
at any attempt propagates immediately, with no further attempt and no
further delay. -/
theorem startup_retry_policy (outcome : Nat → AttemptOutcome) :
    max_retries = 30 ∧ retry_delay_seconds = 2 ∧
    ((∀ k, k < max_retries → outcome k = AttemptOutcome.connFail) →
      init_database_startup outcome =
        (InitResult.fatalConnError 30, List.replicate 29 retry_delay_seconds)) ∧
    (∀ j, j < max_retries →
      (∀ k, k < j → outcome k = AttemptOutcome.connFail) →
      outcome j = AttemptOutcome.otherFail →
      init_database_startup outcome =
        (InitResult.fatalOtherError (j + 1), List.replicate j retry_delay_seconds)) := by
  refine ⟨rfl, rfl, ?_, ?_⟩
  · intro h
    have h29 := initLoop_allConnFail outcome 29 0 (by decide) (fun k _ hk2 => h k hk2)
    simpa [init_database_startup, max_retries] using h29
  · intro j hj hconn hother
    have hof := initLoop_otherFail outcome max_retries 0 j (by omega) hj
      (fun k _ hk2 => hconn k (by omega)) (by simpa using hother)
    simpa [init_database_startup] using hof

/-- C7 witness: all-connection-failure and third-attempt-non-connection
outcomes at concrete inputs. -/
theorem startup_retry_policy_witness :
    init_database_startup (fun _ => AttemptOutcome.connFail) =
      (InitResult.fatalConnError 30, List.replicate 29 retry_delay_seconds) ∧
    init_database_startup
        (fun k => if k < 2 then AttemptOutcome.connFail else AttemptOutcome.otherFail) =
      (InitResult.fatalOtherError 3, List.replicate 2 retry_delay_seconds) := by
  constructor
  · exact (startup_retry_policy _).2.2.1 (fun k _ => rfl)
  · exact (startup_retry_policy _).2.2.2 2 (by decide)
      (fun k hk => by simp [hk]) (by simp)

theorem char_toLower_eq_of_lt {c x : Char} (hx : x.toNat < 97) (h : c.toLower = x) :
    c = x := by
  simp only [Char.toLower] at h
  by_cases hc : c.toNat ≥ 65 ∧ c.toNat ≤ 90
  · rw [if_pos hc] at h
    exfalso
    have hv : Nat.isValidChar (c.toNat + 32) := Or.inl (by omega)
    have hlt : c.toNat + 32 < 2 ^ 32 := by omega
    have h2 : (Char.ofNat (c.toNat + 32)).toNat = c.toNat + 32 := by
      unfold Char.ofNat
      rw [dif_pos hv]
      simp [Char.ofNatAux, Char.toNat, UInt32.toNat, BitVec.toNat_ofNatLt]
    rw [h] at h2
    omega
  · rw [if_neg hc] at h
    exact h

theorem plainChars_map_toLower {l : List Char} (h : plainChars l = true) :
    plainChars (l.map Char.toLower) = true := by
  simp only [plainChars, List.all_eq_true, List.mem_map] at h ⊢
  rintro c ⟨a, ha, rfl⟩
  have ha2 := h a ha
  simp only [Bool.and_eq_true, Bool.not_eq_true', beq_eq_false_iff_ne] at ha2 ⊢
  exact ⟨fun heq => ha2.1 (char_toLower_eq_of_lt (by decide) heq),
    fun heq => ha2.2 (char_toLower_eq_of_lt (by decide) heq)⟩

theorem likeMatch_plain_append :
    ∀ (q : List Char), plainChars q = true → ∀ (p2 h : List Char),
    likeMatch (q ++ p2) h = (q.isPrefixOf h && likeMatch p2 (h.drop q.length)) := by
  intro q
  induction q with
  | nil => intro _ p2 h; simp [List.isPrefixOf]
  | cons c q ih =>
    intro hq p2 h
    have hsplit : (!(c == '%') && !(c == '_')) = true ∧ plainChars q = true := by
      simpa [plainChars] using hq
    obtain ⟨hcm, hqt⟩ := hsplit
    have hcp : ¬ (c = '%') := by
      simp only [Bool.and_eq_true, Bool.not_eq_true', beq_eq_false_iff_ne] at hcm
      exact hcm.1
    have hcu : (c == '_') = false := by
      simp only [Bool.and_eq_true, Bool.not_eq_true'] at hcm
      exact hcm.2
    cases h with
    | nil =>
      rw [List.cons_append, likeMatch]
      simp [hcp, List.isPrefixOf]
    | cons d hs =>
      rw [List.cons_append, likeMatch]
      simp only [if_neg hcp, hcu, Bool.false_or]
      rw [ih hqt p2 hs]
      simp [List.isPrefixOf, Bool.and_assoc]

theorem likeMatch_pct_nil_true : ∀ h, likeMatch ['%'] h = true := by
  intro h
  induction h with
  | nil =>
    rw [likeMatch, if_pos rfl, likeMatch]
    rfl
  | cons c hs ih =>
    rw [likeMatch, if_pos rfl]
    simp [ih]

theorem likeMatch_pct_cons (ps : List Char) :
    ∀ h, (likeMatch ('%' :: ps) h = true ↔ ∃ n, likeMatch ps (h.drop n) = true) := by
  intro h
  induction h with
  | nil =>
    rw [likeMatch]
    constructor
    · intro hm
      exact ⟨0, by simpa using hm⟩
    · rintro ⟨n, hn⟩
      simpa using hn
  | cons c hs ih =>
    rw [likeMatch, if_pos rfl]
    simp only [Bool.or_eq_true]
    constructor
    · rintro (hm | hm)
      · exact ⟨0, by simpa using hm⟩
      · obtain ⟨n, hn⟩ := ih.mp hm
        exact ⟨n + 1, by simpa using hn⟩
    · rintro ⟨n, hn⟩
      cases n with
      | zero => exact Or.inl (by simpa using hn)
      | succ n2 => exact Or.inr (ih.mpr ⟨n2, by simpa using hn⟩)

theorem isSubstr_iff (q : List Char) :
    ∀ h, (isSubstr q h = true ↔ ∃ n, q.isPrefixOf (h.drop n) = true) := by
  intro h
  induction h with
  | nil =>
    rw [isSubstr]
    constructor
    · intro hm
      exact ⟨0, by simpa using hm⟩
    · rintro ⟨n, hn⟩
      simpa using hn
  | cons c hs ih =>
    rw [isSubstr]
    simp only [Bool.or_eq_true]
    constructor
    · rintro (hm | hm)
      · exact ⟨0, by simpa using hm⟩
      · obtain ⟨n, hn⟩ := ih.mp hm
        exact ⟨n + 1, by simpa using hn⟩
    · rintro ⟨n, hn⟩
      cases n with
      | zero => exact Or.inl (by simpa using hn)
      | succ n2 => exact Or.inr (ih.mpr ⟨n2, by simpa using hn⟩)

theorem likeMatch_wrapped_eq_isSubstr (q h : List Char) (hq : plainChars q = true) :
    likeMatch ('%' :: (q ++ ['%'])) h = isSubstr q h := by
  rw [Bool.eq_iff_iff, likeMatch_pct_cons, isSubstr_iff]
  constructor
  · rintro ⟨n, hn⟩
    rw [likeMatch_plain_append q hq ['%'] _, Bool.and_eq_true] at hn
    exact ⟨n, hn.1⟩
  · rintro ⟨n, hn⟩
    refine ⟨n, ?_⟩
    rw [likeMatch_plain_append q hq ['%'] _]
    simp [hn, likeMatch_pct_nil_true]

theorem ilike_wrapped_eq_containsCI (field q : String) (hq : plainChars q.data = true) :
    ilike field ("%" ++ q ++ "%") = containsCI field q := by
  unfold ilike containsCI lowerStr
  have hdata : ("%" ++ q ++ "%").data = '%' :: (q.data ++ ['%']) := by
    simp [String.data_append]
  rw [hdata]
  have hpct : Char.toLower '%' = '%' := by decide
  simp only [List.map_cons, List.map_append, List.map, hpct]
  exact likeMatch_wrapped_eq_isSubstr _ _ (plainChars_map_toLower hq)

/-- C3: each present filter contributes exactly its specified
sub-condition: a non-empty free-text query contributes the single
OR-of-three ILIKE sub-condition over subject, sender address and
recipient address, binding the identical wildcard-wrapped literal at all
three positions, and (for a literal free of LIKE metacharacters) its
row-level meaning is case-insensitive substring matching; `date_from` /
`date_to` each contribute an inclusive bound on the sent timestamp. -/
theorem filter_subconditions (f : SearchFilters) (r : EmailRow) :
    (f.query ≠ "" →
      queryConds f.query = [Cond.textSearch ("%" ++ f.query ++ "%")] ∧
      queryParams f.query =
        [SqlParam.str ("%" ++ f.query ++ "%"), SqlParam.str ("%" ++ f.query ++ "%"),
          SqlParam.str ("%" ++ f.query ++ "%")] ∧
      (Cond.textSearch ("%" ++ f.query ++ "%")).eval r =
        (ilike r.subject ("%" ++ f.query ++ "%") ||
          ilike r.sender_email ("%" ++ f.query ++ "%") ||
          ilike r.recipient_email ("%" ++ f.query ++ "%")) ∧
      (plainChars f.query.data = true →
        (Cond.textSearch ("%" ++ f.query ++ "%")).eval r =
          (containsCI r.subject f.query || containsCI r.sender_email f.query ||
            containsCI r.recipient_email f.query))) ∧
    (∀ d, f.date_from = some d →
      dateFromConds f.date_from = [Cond.sentFrom d] ∧
      (Cond.sentFrom d).toSQL = "sent_date >= %s" ∧
      dateFromParams f.date_from = [SqlParam.ts d] ∧
      ((Cond.sentFrom d).eval r = true ↔ d ≤ r.sent_date)) ∧
    (∀ d, f.date_to = some d →
      dateToConds f.date_to = [Cond.sentTo d] ∧
      (Cond.sentTo d).toSQL = "sent_date <= %s" ∧
      dateToParams f.date_to = [SqlParam.ts d] ∧
      ((Cond.sentTo d).eval r = true ↔ r.sent_date ≤ d)) := by
  refine ⟨?_, ?_, ?_⟩
  · intro hq
    refine ⟨by simp [queryConds, hq], by simp [queryParams, hq], rfl, ?_⟩
    intro hplain
    show (ilike r.subject ("%" ++ f.query ++ "%") ||
      ilike r.sender_email ("%" ++ f.query ++ "%") ||
      ilike r.recipient_email ("%" ++ f.query ++ "%")) = _
    rw [ilike_wrapped_eq_containsCI r.subject f.query hplain,
      ilike_wrapped_eq_containsCI r.sender_email f.query hplain,
      ilike_wrapped_eq_containsCI r.recipient_email f.query hplain]
  · intro d hd
    rw [hd]
    exact ⟨rfl, rfl, rfl, by simp [Cond.eval]⟩
  · intro d hd
    rw [hd]
    exact ⟨rfl, rfl, rfl, by simp [Cond.eval]⟩

/-- C3 witness at a concrete filter set and row. -/
theorem filter_subconditions_witness :
    queryConds "DMS" = [Cond.textSearch ("%" ++ "DMS" ++ "%")] ∧
    queryParams "DMS" =
      [SqlParam.str ("%" ++ "DMS" ++ "%"), SqlParam.str ("%" ++ "DMS" ++ "%"),
        SqlParam.str ("%" ++ "DMS" ++ "%")] ∧
    (Cond.textSearch ("%" ++ "DMS" ++ "%")).eval demoRow =
      (containsCI demoRow.subject "DMS" || containsCI demoRow.sender_email "DMS" ||
        containsCI demoRow.recipient_email "DMS") ∧
    dateFromConds (some 5) = [Cond.sentFrom 5] ∧
    (Cond.sentFrom 5).toSQL = "sent_date >= %s" ∧
    ((Cond.sentFrom 5).eval demoRow = true ↔ (5 : Int) ≤ demoRow.sent_date) ∧
    dateToConds (some 9) = [Cond.sentTo 9] ∧
    ((Cond.sentTo 9).eval demoRow = true ↔ demoRow.sent_date ≤ (9 : Int)) := by
  have h := filter_subconditions
    { query := "DMS", date_from := some 5, date_to := some 9, classification := none }
    demoRow
  have hq := h.1 (by decide)
  have hdf := h.2.1 5 rfl
  have hdt := h.2.2 9 rfl
  exact ⟨hq.1, hq.2.1, hq.2.2.2 (by decide), hdf.1, hdf.2.1, hdf.2.2.2,
    hdt.1, hdt.2.2.2⟩
